import Mathlib

/-!
Shallow embedding of the fluid-expense-track aggregation pipeline
(src/fetchers/solana_fetcher.py, src/fetchers/dune_fetcher.py,
src/fetchers/price_fetcher.py, src/utils/data_processor.py).

Machine reals of the source (Python floats) are modelled as rationals;
datetimes are modelled as a year/month/day structure, and `to_period('M')`
as a month index; times used for cache ages are rationals measured in
minutes, matching the sources' `total_seconds() / 60` computations.
-/

namespace Fluid

/-- A calendar timestamp; models the Python `datetime` values carried by
transfers (only the fields the pipeline reads are kept). -/
structure Timestamp where
  year : ℕ
  month : ℕ
  day : ℕ
deriving DecidableEq, Repr

/-- Month truncation, modelling `pd.to_datetime(...).dt.to_period('M')`:
the grouping key keeps only year and month. -/
def monthOf (t : Timestamp) : ℕ :=
  12 * t.year + (t.month - 1)

/-- A raw Solscan transfer row, as consumed by `process_transactions`
(src/fetchers/solana_fetcher.py lines 126-167).  Fields are the ones the
code reads via `tx.get(...)`. -/
structure RawTx where
  trans_id : String
  flow : String
  from_address : String
  to_address : String
  token_address : String
  amount : ℕ
  token_decimals : ℕ
  value : ℚ
  time : Timestamp
  block_id : ℕ
deriving DecidableEq, Repr

/-- Page metadata: the `metadata['tokens']` mapping from token address to
token symbol (only `token_symbol` is read). -/
def Meta := List (String × String)

/-- A processed transfer, the dictionary built at
src/fetchers/solana_fetcher.py lines 157-167. -/
structure ProcessedTx where
  signature : String
  timestamp : Timestamp
  type : String
  token : String
  amount : ℚ
  value_usd : ℚ
  counterparty : String
  team : String
  block_id : ℕ
deriving DecidableEq, Repr

/-- The `ADDRESS_TAGS` table (src/fetchers/solana_fetcher.py lines 23-38). -/
def ADDRESS_TAGS : List (String × String) :=
  [("5AZYLkiU4SPYDeRMcPbPRPmiz2Ny85jWFeV4xmQsVBNo", "Fluid Team"),
   ("HUBLSmfDxXxxzgg4KM6Q5onHVwBG5KeKjeA2BnvE5D9r", "Fluid Team"),
   ("7b1zZUuae2F56e66GqpkKe1Tq1BK2ePRRuGGr8ahe2JB", "JUP Team"),
   ("FH9bgRZrEGFA1d4859wSBdNnHgtU5ZDqFUPccHDnYQ3p", "Maple"),
   ("DVBfCpHoAtVgcVLFHyUgXaWg5ZaKU8CkekXu23ZD4iod", "Gauntlet"),
   ("fr6yQkDmWy6R6pecbUsxXaw6EvRJznZ2HsK5frQgud8", "USDG Team"),
   ("8sjM83a4u2M8YZYshLGKzYxh1VHFfbgtaytwaoEg4bUJ", "Jito Team"),
   ("8JmDPG5BFQ6gpUPJV9xBixYJLqTKCSNotkXksTmNsQfj", "Sky Team"),
   ("62SJTxjWbyaPei1HPW9mFX7KMYCEp7Z9zwiL4hGa8WQv", "LBTC Team"),
   ("EeQmNqm1RcQnee8LTyx6ccVG9FnR8TezQuw2JXq2LC1T", "Sanctum INF Team"),
   ("41zCUJsKk6cMB94DDtm99qWmyMZfp4GkAhhuz4xTwePu", "PST Team"),
   ("JANAjsZKJhtHF9PUF8cwjVp5oQjdcHYiGiFgc8TWQjp2", "Binance Campaign"),
   ("3ssDYFbTpACkshGeYHMBovxB4aE2G6fbZNeVChi85J1k", "Binance Campaign"),
   ("7s1da8DduuBFqGra5bJBjpnvL5E9mGzCuMk1Qkh4or2Z", "Liquidity Layer")]

/-- `ADDRESS_TAGS.get(counterparty, "Unknown")`. -/
def lookupTag (addr : String) : String :=
  ((ADDRESS_TAGS.find? (fun p => p.1 == addr)).map (fun p => p.2)).getD "Unknown"

/-- `tokens_meta.get(token_address, {}).get('token_symbol', 'UNKNOWN')`. -/
def tokenSymbol (meta : Meta) (addr : String) : String :=
  ((meta.find? (fun p => p.1 == addr)).map (fun p => p.2)).getD "UNKNOWN"

/-- `amount = amount_raw / (10 ** decimals)`
(src/fetchers/solana_fetcher.py line 143). -/
def txAmount (tx : RawTx) : ℚ :=
  (tx.amount : ℚ) / (10 : ℚ) ^ tx.token_decimals

/-- `MIN_VALUE_USD` (src/fetchers/solana_fetcher.py line 19). -/
def MIN_VALUE_USD : ℚ := 1000

/-- The per-transfer USD valuation of lines 145-150: stablecoins at 1:1,
SOL/WSOL at the current SOL price, anything else uses the
upstream-reported `value` verbatim. -/
def txValueUsd (solPrice : ℚ) (meta : Meta) (tx : RawTx) : ℚ :=
  let s := tokenSymbol meta tx.token_address
  if s ∈ ["USDC", "USDT", "USDS", "USDG", "EURC"] then txAmount tx * 1
  else if s ∈ ["SOL", "WSOL"] then txAmount tx * solPrice
  else tx.value

/-- Build the processed record of lines 127-167 for one transfer. -/
def classifyTx (solPrice : ℚ) (meta : Meta) (tx : RawTx) : ProcessedTx :=
  let counterparty := if tx.flow = "in" then tx.from_address else tx.to_address
  { signature := tx.trans_id
    timestamp := tx.time
    type := if tx.flow = "in" then "Inflow" else "Outflow"
    token := tokenSymbol meta tx.token_address
    amount := txAmount tx
    value_usd := txValueUsd solPrice meta tx
    counterparty := counterparty
    team := lookupTag counterparty
    block_id := tx.block_id }

/-- `process_transactions` (src/fetchers/solana_fetcher.py lines 120-169):
classify every transfer and skip (`continue`) those whose computed USD
value is below `MIN_VALUE_USD`.  The SOL price fetched by
`get_sol_price()` is a parameter. -/
def process_transactions (solPrice : ℚ) (meta : Meta) : List RawTx → List ProcessedTx
  | [] => []
  | tx :: rest =>
    if txValueUsd solPrice meta tx < MIN_VALUE_USD then
      process_transactions solPrice meta rest
    else
      classifyTx solPrice meta tx :: process_transactions solPrice meta rest

/-- One aggregated monthly row, as produced by `aggregate_monthly_expenses`
(src/fetchers/solana_fetcher.py lines 245-255). -/
structure MonthlyRow where
  month : ℕ
  token : String
  total_amount : ℚ
  total_usd : ℚ
  num_transactions : ℕ
  chain : String
  source : String
deriving DecidableEq, Repr

/-- The grouping key of `df.groupby(['month', 'token'])`. -/
def txKey (t : ProcessedTx) : ℕ × String :=
  (monthOf t.timestamp, t.token)

/-- The `groupby(['month', 'token']).agg(...)` step of
`aggregate_monthly_expenses` (src/fetchers/solana_fetcher.py lines
242-255): one row per distinct (month, token) key, summing `amount` and
`value_usd` and counting transfers. -/
def aggCore (df2 : List ProcessedTx) : List MonthlyRow :=
  (df2.map txKey).dedup.map (fun k =>
    let grp := df2.filter (fun t => txKey t == k)
    { month := k.1
      token := k.2
      total_amount := (grp.map (fun t => t.amount)).sum
      total_usd := (grp.map (fun t => t.value_usd)).sum
      num_transactions := grp.length
      chain := "solana"
      source := "Solana" })

/-- The pure aggregation core of `aggregate_monthly_expenses`
(src/fetchers/solana_fetcher.py lines 227-255), applied to an
already-fetched transaction list: keep outflows, drop USDC, group by
(month, token), summing amount and value and counting signatures. -/
def aggregate_monthly_expenses (txs : List ProcessedTx) : List MonthlyRow :=
  if txs = [] then []
  else
    let df := txs.filter (fun t => t.type == "Outflow")
    let df2 := df.filter (fun t => t.token != "USDC")
    if df2 = [] then []
    else aggCore df2

/-- The outcome of one `fetch_from_solscan` call
(src/fetchers/solana_fetcher.py lines 94-117): data, page metadata, a
success flag and an error message. -/
structure PageResult where
  data : List RawTx
  meta : Meta
  success : Bool
  error : Option String

/-- The outcome of `fetch_all_transactions`: the returned transaction
list, success flag and error, plus the dataset written by `save_cache`
(`none` when nothing was written). -/
structure FetchResult where
  txs : List ProcessedTx
  success : Bool
  error : Option String
  saved : Option (List ProcessedTx)
deriving DecidableEq, Repr

/-- The processed transfers one page contributes
(`process_transactions(raw_data, metadata)` at line 198). -/
def processedOf (solPrice : ℚ) (p : PageResult) : List ProcessedTx :=
  process_transactions solPrice p.meta p.data

/-- The pagination loop of `fetch_all_transactions`
(src/fetchers/solana_fetcher.py lines 186-199): on a failed page return
the error with an empty list, on an empty page stop, otherwise extend
the accumulator with the page's processed transfers. -/
def fetchLoop (solPrice : ℚ) : List PageResult → List ProcessedTx →
    List ProcessedTx × Bool × Option String
  | [], acc => (acc, true, none)
  | p :: rest, acc =>
    if p.success = false then ([], false, p.error)
    else if p.data = [] then (acc, true, none)
    else fetchLoop solPrice rest (acc ++ processedOf solPrice p)

/-- `fetch_all_transactions` (src/fetchers/solana_fetcher.py lines
172-206).  `cached` is the list returned by `load_cache` (`none` when the
cache file is absent or unreadable); `pages` are the Solscan responses for
pages `1 .. max_pages` in order.  Mirrors the Python truthiness test
`if cached:` (an empty cached list counts as a miss) and the fact that
`save_cache` runs only after a fully successful non-cached fetch. -/
def fetch_all_transactions (solPrice : ℚ) (cached : Option (List ProcessedTx))
    (pages : List PageResult) : FetchResult :=
  let miss : FetchResult :=
    match fetchLoop solPrice pages [] with
    | (txs, true, _) => ⟨txs, true, none, some txs⟩
    | (_, false, e) => ⟨[], false, e, none⟩
  match cached with
  | some c => if c = [] then miss else ⟨c, true, none, none⟩
  | none => miss

/-- An EVM monthly row as fetched from Dune
(src/fetchers/dune_fetcher.py lines 51-61). -/
structure EvmRow where
  month : ℕ
  chain : String
  total_claims : ℕ
  total_fluid_claimed : ℚ
  source : String
deriving DecidableEq, Repr

/-- A stored Dune cache file that parsed successfully
(src/fetchers/dune_fetcher.py `{last_updated, data}`); `last_updated` in
minutes. -/
structure DuneCacheContent where
  last_updated : ℚ
  data : List EvmRow
deriving Repr

/-- A stored Solana cache file that parsed successfully
(src/fetchers/solana_fetcher.py `{last_updated, transactions}`);
`last_updated` in minutes. -/
structure SolCacheContent where
  last_updated : ℚ
  transactions : List ProcessedTx
deriving Repr

/-- `CACHE_TTL_MINUTES` of src/fetchers/dune_fetcher.py line 16. -/
def CACHE_TTL_MINUTES : ℚ := 60

/-- `load_cache` of src/fetchers/dune_fetcher.py lines 78-97.  The cache
file state is `none` (file absent), `some none` (file present but any
read/parse step raised) or `some (some c)`; `now` is the current time in
minutes.  Fresh means `age_minutes < CACHE_TTL_MINUTES`. -/
def dune_load_cache (now : ℚ) (file : Option (Option DuneCacheContent)) :
    Option (List EvmRow) :=
  match file with
  | none => none
  | some none => none
  | some (some c) =>
    if now - c.last_updated < CACHE_TTL_MINUTES then some c.data else none

/-- `load_cache` of src/fetchers/solana_fetcher.py lines 57-72.  The
source checks only that the file exists and deserializes; it reads no
clock and compares no age, so `now` is unused. -/
def solana_load_cache (_now : ℚ) (file : Option (Option SolCacheContent)) :
    Option (List ProcessedTx) :=
  match file with
  | none => none
  | some none => none
  | some (some c) => some c.transactions

/-- One side of an upstream dex listing entry
(src/fetchers/price_fetcher.py: `token0` / `token1` objects). -/
structure PairToken where
  symbol : String
  price : ℚ
deriving Repr

/-- One dex listing entry; `token0` / `token1` may be absent
(`if 'token0' in dex`). -/
structure Dex where
  token0 : Option PairToken
  token1 : Option PairToken
deriving Repr

/-- The scan of src/fetchers/price_fetcher.py lines 40-59: first entry
whose `token0` symbol is FLUID yields that side's price, else its
`token1` is tried, else the scan continues. -/
def findFluidPrice : List Dex → Option ℚ
  | [] => none
  | d :: rest =>
    match d.token0 with
    | some t =>
      if t.symbol = "FLUID" then some t.price
      else
        match d.token1 with
        | some u => if u.symbol = "FLUID" then some u.price else findFluidPrice rest
        | none => findFluidPrice rest
    | none =>
      match d.token1 with
      | some u => if u.symbol = "FLUID" then some u.price else findFluidPrice rest
      | none => findFluidPrice rest

/-- `CACHE_TTL_MINUTES` of src/fetchers/price_fetcher.py line 19. -/
def PRICE_TTL_MINUTES : ℚ := 5

/-- `get_fluid_price` (src/fetchers/price_fetcher.py lines 22-69).
State is the module-level `_price_cache`, modelled as `none` (both fields
`None`, the only other reachable shape) or `some (price, timestamp)`;
`now` is the current time in minutes; `upstream` is the outcome of the
dexes request (`Except.error` for any raised exception).  Returns the
price together with the cache state after the call.  The Python
truthiness test `if _price_cache['price']:` on the error path is the
rational test `p ≠ 0`. -/
def get_fluid_price (useCache : Bool) (now : ℚ) (cache : Option (ℚ × ℚ))
    (upstream : Except String (List Dex)) : ℚ × Option (ℚ × ℚ) :=
  let fresh : Bool :=
    match cache with
    | some (_, ts) => useCache && decide (now - ts < PRICE_TTL_MINUTES)
    | none => false
  if fresh then
    match cache with
    | some (p, _) => (p, cache)
    | none => (0.30, cache)
  else
    match upstream with
    | Except.ok dexes =>
      match findFluidPrice dexes with
      | some p => (p, some (p, now))
      | none => (0.30, cache)
    | Except.error _ =>
      match cache with
      | some (p, _) => if p ≠ 0 then (p, cache) else (0.30, cache)
      | none => (0.30, cache)

/-- A canonical expense record, the post-normalization schema of
src/utils/data_processor.py (columns month, chain, source, token,
token_amount, usd_value, num_transactions). -/
structure NormRecord where
  month : ℕ
  chain : String
  source : String
  token : String
  token_amount : ℚ
  usd_value : ℚ
  num_transactions : ℕ
deriving DecidableEq, Repr

/-- `normalize_evm_data` (src/utils/data_processor.py lines 10-36):
empty in, empty out; otherwise `usd_value = total_fluid_claimed *
fluid_price`, token forced to FLUID, columns renamed. -/
def normalize_evm_data (rows : List EvmRow) (fluidPrice : ℚ) : List NormRecord :=
  if rows = [] then []
  else rows.map (fun r =>
    { month := r.month
      chain := r.chain
      source := r.source
      token := "FLUID"
      token_amount := r.total_fluid_claimed
      usd_value := r.total_fluid_claimed * fluidPrice
      num_transactions := r.total_claims })

/-- `normalize_solana_data` (src/utils/data_processor.py lines 39-69):
empty in, empty out; otherwise FLUID/SOL/WSOL rows are re-valued at the
current price and every other token keeps `total_usd`. -/
def normalize_solana_data (rows : List MonthlyRow) (fluidPrice : ℚ) : List NormRecord :=
  if rows = [] then []
  else rows.map (fun r =>
    { month := r.month
      chain := r.chain
      source := r.source
      token := r.token
      token_amount := r.total_amount
      usd_value :=
        if r.token ∈ ["FLUID", "SOL", "WSOL"] then r.total_amount * fluidPrice
        else r.total_usd
      num_transactions := r.num_transactions })

/-- Sort key order of `combined.sort_values('month', ascending=False)`:
month non-increasing. -/
def monthDesc (a b : NormRecord) : Prop := b.month ≤ a.month

instance : DecidableRel monthDesc := fun a b => Nat.decLe b.month a.month

instance : IsTotal NormRecord monthDesc := ⟨fun a b => le_total b.month a.month⟩

instance : IsTrans NormRecord monthDesc := ⟨fun _ _ _ hab hbc => le_trans hbc hab⟩

/-- The pure combination core of `combine_all_expenses`
(src/utils/data_processor.py lines 109-116): normalize both frames,
concatenate, sort by month descending. -/
def combine_all_expenses (evmRows : List EvmRow) (solRows : List MonthlyRow)
    (fluidPrice : ℚ) : List NormRecord :=
  List.insertionSort monthDesc
    (normalize_evm_data evmRows fluidPrice ++ normalize_solana_data solRows fluidPrice)

/-- The mapping returned by `get_summary_metrics`
(src/utils/data_processor.py lines 130-155); `current_month = none`
models the absence of the `'current_month'` key in the empty branch. -/
structure Metrics where
  total_usd : ℚ
  current_month_usd : ℚ
  evm_total_usd : ℚ
  solana_total_usd : ℚ
  total_transactions : ℕ
  current_month : Option ℕ
deriving DecidableEq, Repr

/-- `combined_df['month'].max()` over a non-empty frame. -/
def maxMonth : List NormRecord → ℕ
  | [] => 0
  | r :: rs => max r.month (maxMonth rs)

/-- `get_summary_metrics` (src/utils/data_processor.py lines 130-155). -/
def get_summary_metrics (df : List NormRecord) : Metrics :=
  if df = [] then
    { total_usd := 0
      current_month_usd := 0
      evm_total_usd := 0
      solana_total_usd := 0
      total_transactions := 0
      current_month := none }
  else
    let cm := maxMonth df
    { total_usd := (df.map (fun r => r.usd_value)).sum
      current_month_usd :=
        ((df.filter (fun r => r.month == cm)).map (fun r => r.usd_value)).sum
      evm_total_usd :=
        ((df.filter (fun r => r.source == "EVM")).map (fun r => r.usd_value)).sum
      solana_total_usd :=
        ((df.filter (fun r => r.source == "Solana")).map (fun r => r.usd_value)).sum
      total_transactions := (df.map (fun r => r.num_transactions)).sum
      current_month := some cm }

/-! ## Theorems -/

/-- C2: `process_transactions` discards every transfer whose computed USD
value is strictly below 1000 and retains (classified) every transfer whose
computed USD value is at or above 1000: the processed list is exactly the
classification of the at-or-above-threshold transfers. -/
theorem c2_threshold_filter (solPrice : ℚ) (meta : Meta) (raw : List RawTx) :
    process_transactions solPrice meta raw =
      (raw.filter (fun tx => decide ((1000 : ℚ) ≤ txValueUsd solPrice meta tx))).map
        (classifyTx solPrice meta) := by
  induction raw with
  | nil => rfl
  | cons tx rest ih =>
    by_cases h : txValueUsd solPrice meta tx < MIN_VALUE_USD
    · have h2 : ¬ (1000 : ℚ) ≤ txValueUsd solPrice meta tx := by
        simpa [MIN_VALUE_USD] using h
      simp [process_transactions, h, List.filter_cons, h2, ih]
    · have h2 : (1000 : ℚ) ≤ txValueUsd solPrice meta tx := by
        simpa [MIN_VALUE_USD] using not_lt.mp h
      simp [process_transactions, h, List.filter_cons, h2, ih]

/-- C7: every record `normalize_solana_data` outputs comes from an input
row, with `usd_value = total_amount * price` when the token is FLUID, SOL
or WSOL and `usd_value = total_usd` for every other token; and every input
row yields such an output record. -/
theorem c7_normalize_solana (price : ℚ) (rows : List MonthlyRow) :
    (∀ out ∈ normalize_solana_data rows price, ∃ r ∈ rows,
       out.token = r.token ∧ out.token_amount = r.total_amount ∧
       (r.token ∈ ["FLUID", "SOL", "WSOL"] → out.usd_value = r.total_amount * price) ∧
       (r.token ∉ ["FLUID", "SOL", "WSOL"] → out.usd_value = r.total_usd)) ∧
    (∀ r ∈ rows, ∃ out ∈ normalize_solana_data rows price,
       out.token = r.token ∧ out.token_amount = r.total_amount ∧
       (r.token ∈ ["FLUID", "SOL", "WSOL"] → out.usd_value = r.total_amount * price) ∧
       (r.token ∉ ["FLUID", "SOL", "WSOL"] → out.usd_value = r.total_usd)) := by
  constructor
  · intro out hout
    unfold normalize_solana_data at hout
    by_cases hr : rows = []
    · simp [hr] at hout
    · rw [if_neg hr] at hout
      obtain ⟨r, hrm, hre⟩ := List.mem_map.mp hout
      refine ⟨r, hrm, ?_, ?_, ?_, ?_⟩ <;> subst hre
      · rfl
      · rfl
      · intro hm; simp [hm]
      · intro hm; simp [hm]
  · intro r hrm
    have hr : rows ≠ [] := List.ne_nil_of_mem hrm
    unfold normalize_solana_data
    rw [if_neg hr]
    exact ⟨_, List.mem_map_of_mem _ hrm, rfl, rfl,
      fun hm => by simp [hm], fun hm => by simp [hm]⟩

/-- C7 witness: a concrete WSOL row is re-valued at the current price. -/
theorem c7_witness :
    ∃ out ∈ normalize_solana_data
        [⟨24292, "WSOL", 10, 1500, 1, "solana", "Solana"⟩] (1/2),
      out.token = (⟨24292, "WSOL", 10, 1500, 1, "solana", "Solana"⟩ : MonthlyRow).token ∧
      out.token_amount =
        (⟨24292, "WSOL", 10, 1500, 1, "solana", "Solana"⟩ : MonthlyRow).total_amount ∧
      ((⟨24292, "WSOL", 10, 1500, 1, "solana", "Solana"⟩ : MonthlyRow).token ∈
          ["FLUID", "SOL", "WSOL"] →
        out.usd_value =
          (⟨24292, "WSOL", 10, 1500, 1, "solana", "Solana"⟩ : MonthlyRow).total_amount *
            (1/2)) ∧
      ((⟨24292, "WSOL", 10, 1500, 1, "solana", "Solana"⟩ : MonthlyRow).token ∉
          ["FLUID", "SOL", "WSOL"] →
        out.usd_value =
          (⟨24292, "WSOL", 10, 1500, 1, "solana", "Solana"⟩ : MonthlyRow).total_usd) :=
  (c7_normalize_solana (1/2) [⟨24292, "WSOL", 10, 1500, 1, "solana", "Solana"⟩]).2
    ⟨24292, "WSOL", 10, 1500, 1, "solana", "Solana"⟩ (by simp)

/-- C8: `normalize_evm_data` always sets `usd_value = total_fluid_claimed
* price` and `token = "FLUID"`, and the concrete scenario (month 2024-05
encoded as month index 12*2024+4 = 24292, chain ethereum, 10 claims, 1000
FLUID, price 0.30) normalizes to usd_value 300, token FLUID,
num_transactions 10. -/
theorem c8_normalize_evm (price : ℚ) (rows : List EvmRow) :
    (∀ out ∈ normalize_evm_data rows price, out.token = "FLUID" ∧
       ∃ r ∈ rows, out.usd_value = r.total_fluid_claimed * price ∧
         out.token_amount = r.total_fluid_claimed ∧
         out.num_transactions = r.total_claims ∧
         out.month = r.month ∧ out.chain = r.chain) ∧
    (∀ r ∈ rows, ∃ out ∈ normalize_evm_data rows price,
       out.token = "FLUID" ∧ out.usd_value = r.total_fluid_claimed * price ∧
       out.num_transactions = r.total_claims) ∧
    normalize_evm_data [⟨24292, "ethereum", 10, 1000, "EVM"⟩] 0.30 =
      [⟨24292, "ethereum", "EVM", "FLUID", 1000, 300, 10⟩] := by
  refine ⟨?_, ?_, by simp [normalize_evm_data, NormRecord.mk.injEq]; norm_num⟩
  · intro out hout
    unfold normalize_evm_data at hout
    by_cases hr : rows = []
    · simp [hr] at hout
    · rw [if_neg hr] at hout
      obtain ⟨r, hrm, hre⟩ := List.mem_map.mp hout
      subst hre
      exact ⟨rfl, r, hrm, rfl, rfl, rfl, rfl, rfl⟩
  · intro r hrm
    have hr : rows ≠ [] := List.ne_nil_of_mem hrm
    unfold normalize_evm_data
    rw [if_neg hr]
    exact ⟨_, List.mem_map_of_mem _ hrm, rfl, rfl, rfl⟩

/-- C8 witness: a concrete EVM row valued at a concrete price. -/
theorem c8_witness :
    ∃ out ∈ normalize_evm_data [⟨24292, "ethereum", 10, 1000, "EVM"⟩] (1/2),
      out.token = "FLUID" ∧
      out.usd_value =
        (⟨24292, "ethereum", 10, 1000, "EVM"⟩ : EvmRow).total_fluid_claimed * (1/2) ∧
      out.num_transactions =
        (⟨24292, "ethereum", 10, 1000, "EVM"⟩ : EvmRow).total_claims :=
  (c8_normalize_evm (1/2) [⟨24292, "ethereum", 10, 1000, "EVM"⟩]).2.1
    ⟨24292, "ethereum", 10, 1000, "EVM"⟩ (by simp)

/-- C3 counterexample: the Solana `load_cache` performs no TTL check.
With a stored entry whose age is exactly the claimed 60-minute TTL (entry
written at minute 0, read at minute 60) and a well-formed payload, the
read returns the payload (present), where the claim requires absent. -/
theorem c3_counterexample :
    solana_load_cache 60
        (some (some ⟨0,
          [⟨"sig", ⟨2024, 5, 1⟩, "Outflow", "WSOL", 10, 1500, "addr", "Unknown", 1⟩]⟩)) =
      some [⟨"sig", ⟨2024, 5, 1⟩, "Outflow", "WSOL", 10, 1500, "addr", "Unknown", 1⟩] ∧
    CACHE_TTL_MINUTES ≤ (60 : ℚ) - 0 :=
  ⟨rfl, by norm_num [CACHE_TTL_MINUTES]⟩

/-- C3 (amended): the Dune `load_cache` returns absent when the file is
missing, when deserialization fails, or when the entry's age reaches the
60-minute TTL (absent at exactly the TTL), and returns the payload when
the age is strictly below the TTL; the Solana `load_cache` returns absent
when the file is missing or deserialization fails, but performs no TTL
check and returns the stored payload at every age. -/
theorem c3_cache_ttl :
    (∀ now : ℚ, dune_load_cache now none = none) ∧
    (∀ now : ℚ, dune_load_cache now (some none) = none) ∧
    (∀ (now : ℚ) (c : DuneCacheContent), CACHE_TTL_MINUTES ≤ now - c.last_updated →
       dune_load_cache now (some (some c)) = none) ∧
    (∀ (now : ℚ) (c : DuneCacheContent), now - c.last_updated < CACHE_TTL_MINUTES →
       dune_load_cache now (some (some c)) = some c.data) ∧
    (∀ now : ℚ, solana_load_cache now none = none) ∧
    (∀ now : ℚ, solana_load_cache now (some none) = none) ∧
    (∀ (now : ℚ) (c : SolCacheContent),
       solana_load_cache now (some (some c)) = some c.transactions) := by
  refine ⟨fun _ => rfl, fun _ => rfl, ?_, ?_, fun _ => rfl, fun _ => rfl,
    fun _ _ => rfl⟩
  · intro now c h
    simp only [dune_load_cache]
    rw [if_neg (not_lt.mpr h)]
  · intro now c h
    simp only [dune_load_cache]
    rw [if_pos h]

/-- C3 witness: concrete instances of the amended cache behavior. -/
theorem c3_witness :
    dune_load_cache 60 (some (some ⟨0, []⟩)) = none ∧
    dune_load_cache 30 (some (some ⟨0, [⟨24292, "ethereum", 10, 1000, "EVM"⟩]⟩)) =
      some [⟨24292, "ethereum", 10, 1000, "EVM"⟩] ∧
    solana_load_cache 500 (some (some ⟨0, []⟩)) = some [] :=
  ⟨c3_cache_ttl.2.2.1 60 ⟨0, []⟩ (by norm_num [CACHE_TTL_MINUTES]),
   c3_cache_ttl.2.2.2.1 30 ⟨0, [⟨24292, "ethereum", 10, 1000, "EVM"⟩]⟩
     (by norm_num [CACHE_TTL_MINUTES]),
   c3_cache_ttl.2.2.2.2.2.2 500 ⟨0, []⟩⟩

/-- C4 counterexample: with a stale in-memory quote whose value is 0 and
a failing upstream, `get_fluid_price` returns the hard-coded fallback
0.30 instead of the last known cached quote (0), because the source
tests the cached price for truthiness; the claim's tier (3) requires the
cached quote whenever one exists. -/
theorem c4_counterexample :
    get_fluid_price true 10 (some (0, 0)) (Except.error "connection refused") =
      (0.30, some (0, 0)) ∧
    (0.30 : ℚ) ≠ 0 ∧ PRICE_TTL_MINUTES ≤ (10 : ℚ) - 0 := by
  refine ⟨?_, by norm_num, by norm_num [PRICE_TTL_MINUTES]⟩
  norm_num [get_fluid_price, PRICE_TTL_MINUTES]

/-- C4 (amended): `get_fluid_price` always returns a price through strict
tiers: a quote younger than 5 minutes is returned as is; otherwise a
successful upstream fetch in which the scan finds a FLUID side returns
that side's price and refreshes the quote; on upstream failure the last
known quote is returned when one exists with a nonzero value, and the
hard-coded fallback 0.30 otherwise. -/
theorem c4_price_tiers :
    (∀ (now p ts : ℚ) (u : Except String (List Dex)), now - ts < PRICE_TTL_MINUTES →
       get_fluid_price true now (some (p, ts)) u = (p, some (p, ts))) ∧
    (∀ (now p ts q : ℚ) (dexes : List Dex), PRICE_TTL_MINUTES ≤ now - ts →
       findFluidPrice dexes = some q →
       get_fluid_price true now (some (p, ts)) (Except.ok dexes) = (q, some (q, now))) ∧
    (∀ (now q : ℚ) (dexes : List Dex), findFluidPrice dexes = some q →
       get_fluid_price true now none (Except.ok dexes) = (q, some (q, now))) ∧
    (∀ (now p ts : ℚ) (e : String), PRICE_TTL_MINUTES ≤ now - ts → p ≠ 0 →
       get_fluid_price true now (some (p, ts)) (Except.error e) = (p, some (p, ts))) ∧
    (∀ (now ts : ℚ) (e : String), PRICE_TTL_MINUTES ≤ now - ts →
       get_fluid_price true now (some (0, ts)) (Except.error e) = (0.30, some (0, ts))) ∧
    (∀ (now : ℚ) (e : String),
       get_fluid_price true now none (Except.error e) = (0.30, none)) := by
  refine ⟨?_, ?_, ?_, ?_, ?_, ?_⟩
  · intro now p ts u h
    simp [get_fluid_price, h]
  · intro now p ts q dexes h hfind
    have h2 : ¬ (now - ts < PRICE_TTL_MINUTES) := not_lt.mpr h
    simp [get_fluid_price, h2, hfind]
  · intro now q dexes hfind
    simp [get_fluid_price, hfind]
  · intro now p ts e h hp
    have h2 : ¬ (now - ts < PRICE_TTL_MINUTES) := not_lt.mpr h
    simp [get_fluid_price, h2, hp]
  · intro now ts e h
    have h2 : ¬ (now - ts < PRICE_TTL_MINUTES) := not_lt.mpr h
    simp [get_fluid_price, h2]
  · intro now e
    simp [get_fluid_price]

/-- C4 witness: concrete instances of each price tier. -/
theorem c4_witness :
    get_fluid_price true 2 (some (1/2, 0)) (Except.error "down") =
      (1/2, some (1/2, 0)) ∧
    get_fluid_price true 10 (some (1/2, 0))
        (Except.ok [⟨some ⟨"FLUID", 7/10⟩, none⟩]) = (7/10, some (7/10, 10)) ∧
    get_fluid_price true 10 (some (1/2, 0)) (Except.error "down") =
      (1/2, some (1/2, 0)) ∧
    get_fluid_price true 10 none (Except.error "down") = (0.30, none) :=
  ⟨c4_price_tiers.1 2 (1/2) 0 _ (by norm_num [PRICE_TTL_MINUTES]),
   c4_price_tiers.2.1 10 (1/2) 0 (7/10) _ (by norm_num [PRICE_TTL_MINUTES])
     (by simp [findFluidPrice]),
   c4_price_tiers.2.2.2.1 10 (1/2) 0 "down" (by norm_num [PRICE_TTL_MINUTES])
     (by norm_num),
   c4_price_tiers.2.2.2.2.2 10 "down"⟩

/-- The pagination loop on pages that all succeed with data processes and
concatenates every page. -/
lemma fetchLoop_all_good (sp : ℚ) (pages : List PageResult) (acc : List ProcessedTx)
    (h : ∀ p ∈ pages, p.success = true ∧ p.data ≠ []) :
    fetchLoop sp pages acc = (acc ++ (pages.map (processedOf sp)).flatten, true, none) := by
  induction pages generalizing acc with
  | nil => simp [fetchLoop]
  | cons p rest ih =>
    obtain ⟨hs, hd⟩ := h p (List.mem_cons_self p rest)
    have hrest : ∀ q ∈ rest, q.success = true ∧ q.data ≠ [] :=
      fun q hq => h q (List.mem_cons_of_mem p hq)
    simp [fetchLoop, hs, hd, ih _ hrest, List.append_assoc]

/-- The pagination loop aborts at the first failed page, discarding the
accumulated transfers. -/
lemma fetchLoop_fail (sp : ℚ) (pre : List PageResult) (bad : PageResult)
    (post : List PageResult) (acc : List ProcessedTx)
    (hpre : ∀ p ∈ pre, p.success = true ∧ p.data ≠ []) (hbad : bad.success = false) :
    fetchLoop sp (pre ++ bad :: post) acc = ([], false, bad.error) := by
  induction pre generalizing acc with
  | nil => simp [fetchLoop, hbad]
  | cons p rest ih =>
    obtain ⟨hs, hd⟩ := hpre p (List.mem_cons_self p rest)
    simp [fetchLoop, hs, hd, ih _ (fun q hq => hpre q (List.mem_cons_of_mem p hq))]

/-- The pagination loop stops without error at the first zero-row page,
keeping what earlier pages produced. -/
lemma fetchLoop_empty_stop (sp : ℚ) (pre : List PageResult) (ep : PageResult)
    (post : List PageResult) (acc : List ProcessedTx)
    (hpre : ∀ p ∈ pre, p.success = true ∧ p.data ≠ []) (hs : ep.success = true)
    (hd : ep.data = []) :
    fetchLoop sp (pre ++ ep :: post) acc =
      (acc ++ (pre.map (processedOf sp)).flatten, true, none) := by
  induction pre generalizing acc with
  | nil => simp [fetchLoop, hs, hd]
  | cons p rest ih =>
    obtain ⟨hps, hpd⟩ := hpre p (List.mem_cons_self p rest)
    simp [fetchLoop, hps, hpd, ih _ (fun q hq => hpre q (List.mem_cons_of_mem p hq)),
      List.append_assoc]

/-- C6: on a cache miss, if every page before page k succeeds with rows
and page k fails, `fetch_all_transactions` returns failure carrying page
k's error and an empty transfer list (no truncated dataset built from the
earlier pages); if page k instead succeeds with zero rows, pagination
ends there without error, returning the earlier pages' transfers. -/
theorem c6_pagination_failfast (solPrice : ℚ) :
    (∀ (pre post : List PageResult) (bad : PageResult),
       (∀ p ∈ pre, p.success = true ∧ p.data ≠ []) → bad.success = false →
       fetch_all_transactions solPrice none (pre ++ bad :: post) =
         ⟨[], false, bad.error, none⟩) ∧
    (∀ (pre post : List PageResult) (ep : PageResult),
       (∀ p ∈ pre, p.success = true ∧ p.data ≠ []) → ep.success = true →
       ep.data = [] →
       fetch_all_transactions solPrice none (pre ++ ep :: post) =
         ⟨(pre.map (processedOf solPrice)).flatten, true, none,
          some ((pre.map (processedOf solPrice)).flatten)⟩) := by
  constructor
  · intro pre post bad hpre hbad
    simp [fetch_all_transactions, fetchLoop_fail solPrice pre bad post [] hpre hbad]
  · intro pre post ep hpre hs hd
    simp [fetch_all_transactions,
      fetchLoop_empty_stop solPrice pre ep post [] hpre hs hd]

/-- C6 witness: a failing first page propagates its error with an empty
list; a zero-row page after one good page stops pagination with that
page's transfers. -/
theorem c6_witness :
    fetch_all_transactions 150 none [⟨[], [], false, some "HTTP 500"⟩] =
      ⟨[], false, some "HTTP 500", none⟩ ∧
    fetch_all_transactions 150 none
        ([⟨[⟨"t1", "out", "A", "B", "mintUSDC", 2000, 0, 0, ⟨2024, 5, 1⟩, 9⟩],
           [("mintUSDC", "USDC")], true, none⟩] ++ [⟨[], [], true, none⟩]) =
      ⟨[⟨"t1", ⟨2024, 5, 1⟩, "Outflow", "USDC", 2000, 2000, "B", "Unknown", 9⟩],
       true, none,
       some [⟨"t1", ⟨2024, 5, 1⟩, "Outflow", "USDC", 2000, 2000, "B", "Unknown", 9⟩]⟩ := by
  constructor
  · simpa using (c6_pagination_failfast 150).1 [] []
      ⟨[], [], false, some "HTTP 500"⟩ (by simp) rfl
  · have := (c6_pagination_failfast 150).2
      [⟨[⟨"t1", "out", "A", "B", "mintUSDC", 2000, 0, 0, ⟨2024, 5, 1⟩, 9⟩],
        [("mintUSDC", "USDC")], true, none⟩] [] ⟨[], [], true, none⟩
      (by simp) rfl rfl
    rw [this]
    norm_num [processedOf, process_transactions, txValueUsd, txAmount, classifyTx,
      tokenSymbol, lookupTag, ADDRESS_TAGS, MIN_VALUE_USD, List.find?]
    decide

/-- C5 counterexample: a successful non-cached fetch whose single page
returns one transfer with computed USD value 0 stores the empty processed
list, while the full concatenated upstream transfer list has one entry —
the stored dataset is not the pre-classification, pre-filter list the
claim describes. -/
theorem c5_counterexample :
    (fetch_all_transactions 150 none
        [⟨[⟨"t1", "out", "A", "B", "mintX", 500, 0, 0, ⟨2024, 5, 1⟩, 9⟩],
          [], true, none⟩]).saved = some [] ∧
    (([⟨[⟨"t1", "out", "A", "B", "mintX", 500, 0, 0, ⟨2024, 5, 1⟩, 9⟩],
        [], true, none⟩] : List PageResult).map (fun p => p.data)).flatten =
      [⟨"t1", "out", "A", "B", "mintX", 500, 0, 0, ⟨2024, 5, 1⟩, 9⟩] := by
  constructor
  · simp [fetch_all_transactions, fetchLoop, processedOf, process_transactions,
      txValueUsd, txAmount, tokenSymbol, MIN_VALUE_USD, List.find?]
  · simp

/-- C5 (amended): after every successful non-cached fetch the dataset
stored under the Solana cache key is the returned processed transfer
list — the concatenation of the classified, threshold-filtered transfers
of the fetched pages — not the raw pre-classification list. -/
theorem c5_cache_stores_processed :
    (∀ (sp : ℚ) (pages : List PageResult),
       (fetch_all_transactions sp none pages).success = true →
       (fetch_all_transactions sp none pages).saved =
         some (fetch_all_transactions sp none pages).txs) ∧
    (∀ (sp : ℚ) (pages : List PageResult),
       (∀ p ∈ pages, p.success = true ∧ p.data ≠ []) →
       (fetch_all_transactions sp none pages).saved =
         some ((pages.map (processedOf sp)).flatten)) := by
  constructor
  · intro sp pages hsucc
    rcases hfl : fetchLoop sp pages [] with ⟨txs, ok, err⟩
    cases ok
    · simp [fetch_all_transactions, hfl] at hsucc
    · simp [fetch_all_transactions, hfl]
  · intro sp pages h
    simp [fetch_all_transactions, fetchLoop_all_good sp pages [] h]

/-- C5 witness: concrete instances of the amended storage behavior. -/
theorem c5_witness :
    (fetch_all_transactions 150 none [⟨[], [], true, none⟩]).saved =
      some (fetch_all_transactions 150 none [⟨[], [], true, none⟩]).txs ∧
    (fetch_all_transactions 150 none
        [⟨[⟨"t1", "out", "A", "B", "mintUSDC", 2000, 0, 0, ⟨2024, 5, 1⟩, 9⟩],
          [("mintUSDC", "USDC")], true, none⟩]).saved =
      some ((([⟨[⟨"t1", "out", "A", "B", "mintUSDC", 2000, 0, 0, ⟨2024, 5, 1⟩, 9⟩],
          [("mintUSDC", "USDC")], true, none⟩] : List PageResult).map
            (processedOf 150)).flatten) :=
  ⟨c5_cache_stores_processed.1 150 [⟨[], [], true, none⟩]
     (by simp [fetch_all_transactions, fetchLoop]),
   c5_cache_stores_processed.2 150
     [⟨[⟨"t1", "out", "A", "B", "mintUSDC", 2000, 0, 0, ⟨2024, 5, 1⟩, 9⟩],
       [("mintUSDC", "USDC")], true, none⟩] (by simp)⟩

/-- `aggregate_monthly_expenses` depends only on the outflow, non-USDC
sublist of its input. -/
lemma agg_eq_core (txs : List ProcessedTx) :
    aggregate_monthly_expenses txs =
      if txs.filter (fun t => t.type == "Outflow" && t.token != "USDC") = [] then []
      else aggCore (txs.filter (fun t => t.type == "Outflow" && t.token != "USDC")) := by
  unfold aggregate_monthly_expenses
  have hff : (txs.filter (fun t => t.type == "Outflow")).filter
        (fun t => t.token != "USDC") =
      txs.filter (fun t => t.type == "Outflow" && t.token != "USDC") := by
    rw [List.filter_filter]
    exact List.filter_congr (fun t _ => Bool.and_comm _ _)
  by_cases h0 : txs = []
  · subst h0; simp
  · rw [if_neg h0]
    simp only [hff]

/-- Filtering to outflow, non-USDC transfers is idempotent. -/
lemma filter_outflow_idem (txs : List ProcessedTx) :
    (txs.filter (fun t => t.type == "Outflow" && t.token != "USDC")).filter
        (fun t => t.type == "Outflow" && t.token != "USDC") =
      txs.filter (fun t => t.type == "Outflow" && t.token != "USDC") := by
  rw [List.filter_filter]
  exact List.filter_congr (fun t _ => by
    cases h1 : (t.type == "Outflow") <;> cases h2 : (t.token != "USDC") <;> simp)

/-- C1: the monthly aggregation output never carries the USDC token, and
it is built only from transfers classified as Outflow — deleting every
Inflow transfer and every USDC transfer from the input leaves the
aggregated output unchanged, so such transfers never contribute to any
(month, token) record. -/
theorem c1_aggregation_outflow_no_usdc :
    (∀ txs : List ProcessedTx,
       aggregate_monthly_expenses txs =
         aggregate_monthly_expenses
           (txs.filter (fun t => t.type == "Outflow" && t.token != "USDC"))) ∧
    (∀ (txs : List ProcessedTx), ∀ row ∈ aggregate_monthly_expenses txs,
       row.token ≠ "USDC") := by
  constructor
  · intro txs
    rw [agg_eq_core,
      agg_eq_core (txs.filter (fun t => t.type == "Outflow" && t.token != "USDC")),
      filter_outflow_idem]
  · intro txs row h
    rw [agg_eq_core] at h
    by_cases hf : txs.filter (fun t => t.type == "Outflow" && t.token != "USDC") = []
    · simp [hf] at h
    · rw [if_neg hf] at h
      obtain ⟨k, hk, hrow⟩ := List.mem_map.mp h
      obtain ⟨t, ht, htk⟩ := List.mem_map.mp (List.mem_dedup.mp hk)
      have hq := List.of_mem_filter ht
      have htok : t.token ≠ "USDC" := by
        simp only [Bool.and_eq_true, bne_iff_ne] at hq
        exact hq.2
      have hk2 : k.2 = t.token := by rw [← htk]; rfl
      have hrt : row.token = k.2 := by rw [← hrow]
      rw [hrt, hk2]
      exact htok

/-- C1 witness: aggregating a USDC outflow together with a WSOL outflow
yields exactly the WSOL row, whose token the theorem shows differs from
USDC. -/
theorem c1_witness :
    (⟨24292, "WSOL", 10, 1500, 1, "solana", "Solana"⟩ : MonthlyRow).token ≠ "USDC" :=
  c1_aggregation_outflow_no_usdc.2
    [⟨"s1", ⟨2024, 5, 1⟩, "Outflow", "USDC", 2000, 2000, "A", "Unknown", 1⟩,
     ⟨"s2", ⟨2024, 5, 2⟩, "Outflow", "WSOL", 10, 1500, "B", "Unknown", 2⟩]
    ⟨24292, "WSOL", 10, 1500, 1, "solana", "Solana"⟩
    (by simp [aggregate_monthly_expenses, aggCore, txKey, monthOf, List.dedup])

/-- C9: with both normalized sets non-empty, the combined output has
exactly the sum of the two record counts and is sorted non-increasing by
month. -/
theorem c9_combine_count_sorted (evmRows : List EvmRow) (solRows : List MonthlyRow)
    (price : ℚ) (_he : normalize_evm_data evmRows price ≠ [])
    (_hs : normalize_solana_data solRows price ≠ []) :
    (combine_all_expenses evmRows solRows price).length =
      (normalize_evm_data evmRows price).length +
        (normalize_solana_data solRows price).length ∧
    List.Sorted monthDesc (combine_all_expenses evmRows solRows price) := by
  constructor
  · have hperm := List.perm_insertionSort monthDesc
      (normalize_evm_data evmRows price ++ normalize_solana_data solRows price)
    simp [combine_all_expenses, hperm.length_eq]
  · exact List.sorted_insertionSort monthDesc _

/-- C9 witness: a concrete one-row EVM set and one-row Solana set combine
to two records, sorted by month descending. -/
theorem c9_witness :
    (combine_all_expenses [⟨24292, "ethereum", 10, 1000, "EVM"⟩]
        [⟨24293, "WSOL", 10, 1500, 1, "solana", "Solana"⟩] (1/2)).length =
      (normalize_evm_data [⟨24292, "ethereum", 10, 1000, "EVM"⟩] (1/2)).length +
        (normalize_solana_data [⟨24293, "WSOL", 10, 1500, 1, "solana", "Solana"⟩]
          (1/2)).length ∧
    List.Sorted monthDesc
      (combine_all_expenses [⟨24292, "ethereum", 10, 1000, "EVM"⟩]
        [⟨24293, "WSOL", 10, 1500, 1, "solana", "Solana"⟩] (1/2)) :=
  c9_combine_count_sorted [⟨24292, "ethereum", 10, 1000, "EVM"⟩]
    [⟨24293, "WSOL", 10, 1500, 1, "solana", "Solana"⟩] (1/2)
    (by simp [normalize_evm_data]) (by simp [normalize_solana_data])

/-- Every record's month is bounded by `maxMonth`. -/
lemma month_le_maxMonth {l : List NormRecord} {r : NormRecord} (h : r ∈ l) :
    r.month ≤ maxMonth l := by
  induction l with
  | nil => cases h
  | cons a t ih =>
    rcases List.mem_cons.mp h with rfl | h2
    · exact le_max_left _ _
    · exact le_trans (ih h2) (le_max_right _ _)

/-- `maxMonth` of a non-empty list is attained by some record. -/
lemma maxMonth_mem {l : List NormRecord} (h : l ≠ []) :
    ∃ r ∈ l, r.month = maxMonth l := by
  induction l with
  | nil => exact absurd rfl h
  | cons a t ih =>
    by_cases ht : t = []
    · subst ht
      exact ⟨a, List.mem_cons_self a [], by simp [maxMonth]⟩
    · obtain ⟨r, hr, hm⟩ := ih ht
      rcases le_total a.month (maxMonth t) with hle | hle
      · exact ⟨r, List.mem_cons_of_mem a hr,
          by simp [maxMonth, hm, max_eq_right hle]⟩
      · exact ⟨a, List.mem_cons_self a t, by simp [maxMonth, max_eq_left hle]⟩

/-- C10: on the empty frame `get_summary_metrics` returns the mapping with
all five numeric entries 0 and no current-month entry; on every non-empty
frame it additionally carries a current-month entry equal to the greatest
month present in the data. -/
theorem c10_metrics_shape :
    get_summary_metrics [] = ⟨0, 0, 0, 0, 0, none⟩ ∧
    (∀ df : List NormRecord, df ≠ [] →
       ∃ m, (get_summary_metrics df).current_month = some m ∧
         (∃ r ∈ df, r.month = m) ∧ (∀ r ∈ df, r.month ≤ m)) := by
  constructor
  · rfl
  · intro df hdf
    refine ⟨maxMonth df, ?_, maxMonth_mem hdf, fun r hr => month_le_maxMonth hr⟩
    simp [get_summary_metrics, hdf]

/-- C10 witness: the non-empty branch instantiated on a one-record frame. -/
theorem c10_witness :
    ∃ m, (get_summary_metrics
        [⟨24292, "solana", "Solana", "WSOL", 10, 1500, 1⟩]).current_month = some m ∧
      (∃ r ∈ [(⟨24292, "solana", "Solana", "WSOL", 10, 1500, 1⟩ : NormRecord)],
        r.month = m) ∧
      (∀ r ∈ [(⟨24292, "solana", "Solana", "WSOL", 10, 1500, 1⟩ : NormRecord)],
        r.month ≤ m) :=
  c10_metrics_shape.2 [⟨24292, "solana", "Solana", "WSOL", 10, 1500, 1⟩] (by simp)

end Fluid
